import Mathlib

/-!
Shallow embedding of the artifact-propagation mesh of this repository.

Main source: `advisory_manifold_mesh_p2p.py` (hash-addressed node with
advisory gate and symposium synthesis); `global_mesh.py` /
`ceiling_global_offline_mesh.py` (id-addressed variant) for the
last-writer-wins receive path.

Modelling conventions:
* Python float fields (`timestamp`, `value`, advisor scores) are modelled
  as `ℚ`; the claims under study only involve exact arithmetic on them.
* The content hash `hashlib.sha256(data.encode()).hexdigest()` is modelled
  as an explicit parameter `H : String → String`; no ingest-path operation
  of the source ever recomputes or compares it, so all results are
  uniform in `H`.
* `time.time()` and `random.random()` are passed in as explicit `now`/`rnd`
  arguments where the source consults them.
* Python dicts are association lists (`List (String × α)`) with
  assignment `dictInsert` preserving insertion order on overwrite, as
  Python dicts do; the `set` of seen hashes is a `List String` queried
  by membership.
* A Python exception escaping a call (the `ZeroDivisionError` of
  `ElysiumGateway.evaluate` on an empty advisor list) is modelled by
  `Option`: `none` is the exception.
-/

namespace AdvisoryMesh

/-- Artifact of `advisory_manifold_mesh_p2p.py` (`class Artifact`). -/
structure Artifact where
  data : String
  type : String
  hash : String
  timestamp : ℚ
  processed_by : List String
  value : ℚ
deriving DecidableEq, Repr

/-- `Artifact.__init__(data, artifact_type)`: hash is recomputed from `data`,
timestamp is the current time, provenance starts empty, value is a fresh
random sample. -/
def Artifact.create (H : String → String) (now rnd : ℚ)
    (data : String) (artifact_type : String) : Artifact :=
  { data := data
    type := artifact_type
    hash := H data
    timestamp := now
    processed_by := []
    value := rnd }

/-- The fields of a decoded wire frame (the JSON dict passed to
`Artifact.from_dict`). -/
structure ArtifactDict where
  data : String
  type : String
  hash : String
  timestamp : ℚ
  processed_by : List String
  value : ℚ
deriving DecidableEq, Repr

/-- `Artifact.from_dict(d)`: constructs via `Artifact(d['data'], d['type'])`
(which recomputes the hash from `data`) and then overwrites `hash`,
`timestamp`, `processed_by` and `value` with the declared wire values.
The recomputed hash is discarded, never compared with `d['hash']`. -/
def Artifact.from_dict (H : String → String) (now rnd : ℚ)
    (d : ArtifactDict) : Artifact :=
  let art := Artifact.create H now rnd d.data d.type
  { art with
      hash := d.hash
      timestamp := d.timestamp
      processed_by := d.processed_by
      value := d.value }

/-- `class Advisor`: a named scoring function. -/
structure Advisor where
  name : String
  score : Artifact → ℚ

/-- `class ElysiumGateway`: a named list of advisors.  Its `__init__`
performs no validation whatsoever (an empty advisor list is accepted). -/
structure ElysiumGateway where
  name : String
  advisors : List Advisor

/-- `ElysiumGateway.evaluate`: mean advisor score strictly above `0.3`.
`sum(...) / len(self.advisors)` raises `ZeroDivisionError` when the
advisor list is empty: modelled as `none`. -/
def ElysiumGateway.evaluate (gw : ElysiumGateway) (artifact : Artifact) :
    Option Bool :=
  if gw.advisors.length = 0 then none
  else
    some (decide
      (((gw.advisors.map (fun adv => adv.score artifact)).sum /
          (gw.advisors.length : ℚ)) > 3 / 10))

/-- `class Symposium`: a named list of advisors (unused by `synthesize`). -/
structure Symposium where
  name : String
  advisors : List Advisor

/-- `Symposium.synthesize(artifacts)`: joins the inputs' `data` with `"|"`,
builds a fresh `meta` artifact from it, and overwrites its value with the
plain mean of the inputs' values (`0` on empty input).  No premium factor
is applied. -/
def Symposium.synthesize (H : String → String) (now rnd : ℚ)
    (_sym : Symposium) (artifacts : List Artifact) : Artifact :=
  let combined := String.intercalate "|" (artifacts.map (fun a => a.data))
  let meta := Artifact.create H now rnd combined "meta"
  { meta with
      value :=
        if artifacts.isEmpty then 0
        else (artifacts.map (fun a => a.value)).sum /
          (artifacts.length : ℚ) }

/-- Lookup in an association-list dict (first matching key). -/
def dictLookup {α : Type} : List (String × α) → String → Option α
  | [], _ => none
  | (k, v) :: rest, key => if k = key then some v else dictLookup rest key

/-- Python dict assignment `m[k] = v`: replaces the first entry with key
`k` in place (keeping its insertion position), else appends at the end. -/
def dictInsert {α : Type} (m : List (String × α)) (k : String) (v : α) :
    List (String × α) :=
  match m with
  | [] => [(k, v)]
  | (k₁, v₁) :: rest =>
    if k₁ = k then (k, v) :: rest else (k₁, v₁) :: dictInsert rest k v

/-- Local state of a `GlobalMeshNode` of `advisory_manifold_mesh_p2p.py`
(the networking fields `host`, `port`, `peers`, `connections` carry no
state relevant to the claims and are omitted). -/
structure GlobalMeshNode where
  node_id : String
  gateways : List ElysiumGateway
  symposiums : List Symposium
  artifacts : List (String × Artifact)
  media_artifacts : List (String × Artifact)
  meta_artifacts : List (String × Artifact)
  seen_hashes : List String

/-- `GlobalMeshNode.__init__`: all stores and the seen-set start empty. -/
def GlobalMeshNode.init (node_id : String) (gateways : List ElysiumGateway)
    (symposiums : List Symposium) : GlobalMeshNode :=
  { node_id := node_id
    gateways := gateways
    symposiums := symposiums
    artifacts := []
    media_artifacts := []
    meta_artifacts := []
    seen_hashes := [] }

/-- Python's short-circuiting `all(gw.evaluate(artifact) for gw in gateways)`:
`none` if some evaluated gateway raises before a `False` is seen. -/
def evalAll : List ElysiumGateway → Artifact → Option Bool
  | [], _ => some true
  | gw :: rest, a =>
    match gw.evaluate a with
    | none => none
    | some false => some false
    | some true => evalAll rest a

/-- `GlobalMeshNode.add_artifact`: if the hash is not yet in the primary
store and every gateway accepts, store the artifact under its own hash and
append this node's id to its provenance (the stored object and the object
later propagated are the same mutated object, returned here alongside the
new state).  `none` models the gateway exception escaping. -/
def GlobalMeshNode.add_artifact (st : GlobalMeshNode) (artifact : Artifact) :
    Option (GlobalMeshNode × Artifact) :=
  if (dictLookup st.artifacts artifact.hash).isSome then some (st, artifact)
  else
    match evalAll st.gateways artifact with
    | none => none
    | some false => some (st, artifact)
    | some true =>
      let a' := { artifact with
                    processed_by := artifact.processed_by ++ [st.node_id] }
      some ({ st with artifacts := dictInsert st.artifacts artifact.hash a' },
            a')

/-- `GlobalMeshNode.add_media_artifact`: store unconditionally (no gate)
under the artifact's own hash, appending this node's id to provenance. -/
def GlobalMeshNode.add_media_artifact (st : GlobalMeshNode)
    (artifact : Artifact) : GlobalMeshNode × Artifact :=
  if (dictLookup st.media_artifacts artifact.hash).isSome then (st, artifact)
  else
    let a' := { artifact with
                  processed_by := artifact.processed_by ++ [st.node_id] }
    ({ st with
        media_artifacts := dictInsert st.media_artifacts artifact.hash a' },
     a')

/-- `self.seen_hashes.add(artifact.hash)`: the unconditional seen-set
update performed before dispatch. -/
def GlobalMeshNode.markSeen (st : GlobalMeshNode) (artifact : Artifact) :
    GlobalMeshNode :=
  { st with seen_hashes := artifact.hash :: st.seen_hashes }

/-- `GlobalMeshNode.process_incoming_artifact`: dedup by hash against the
seen-set, add the hash to the seen-set unconditionally, dispatch `"media"`
to the media store and every other type through the gated primary path,
then propagate.  The second component is the list of artifacts handed to
`propagate_artifact` (`none` when the gateway exception escapes, in which
case the state still carries the updated seen-set). -/
def GlobalMeshNode.process_incoming_artifact (st : GlobalMeshNode)
    (artifact : Artifact) : GlobalMeshNode × Option (List Artifact) :=
  if artifact.hash ∈ st.seen_hashes then (st, some [])
  else if artifact.type = "media" then
    (((st.markSeen artifact).add_media_artifact artifact).1,
     some [((st.markSeen artifact).add_media_artifact artifact).2])
  else
    match (st.markSeen artifact).add_artifact artifact with
    | none => (st.markSeen artifact, none)
    | some r => (r.1, some [r.2])

/-- One step of the `for sym in self.symposiums` loop of `synthesize_meta`:
store the symposium's reduction of the primary snapshot under the meta
artifact's own hash. -/
def metaFoldStep (H : String → String) (now rnd : ℚ) (arts : List Artifact)
    (acc : GlobalMeshNode) (sym : Symposium) : GlobalMeshNode :=
  { acc with
      meta_artifacts :=
        dictInsert acc.meta_artifacts (sym.synthesize H now rnd arts).hash
          (sym.synthesize H now rnd arts) }

/-- `GlobalMeshNode.synthesize_meta`: when the primary store is non-empty,
each symposium reduces the snapshot of primary artifacts to a meta
artifact stored under the meta artifact's own hash. -/
def GlobalMeshNode.synthesize_meta (H : String → String) (now rnd : ℚ)
    (st : GlobalMeshNode) : GlobalMeshNode :=
  if (st.artifacts.map Prod.snd).isEmpty then st
  else
    st.symposiums.foldl
      (metaFoldStep H now rnd (st.artifacts.map Prod.snd)) st

end AdvisoryMesh

namespace IdMesh

/-- Artifact dict of `global_mesh.py` / `ceiling_global_offline_mesh.py`
(id-addressed variant). -/
structure GMArtifact where
  id : Nat
  data : String
  processed_by : List String
  timestamp : ℚ
  value : ℚ
deriving DecidableEq, Repr

/-- `evolve_artifact`: append this node's name to provenance, refresh the
timestamp to now, bump the value by a random increment (the broadcast it
then performs is reported by the caller). -/
def evolve_artifact (name : String) (now rnd : ℚ) (a : GMArtifact) :
    GMArtifact :=
  { a with
      processed_by := a.processed_by ++ [name]
      timestamp := now
      value := a.value + rnd }

/-- `GlobalMeshNode.receive_artifact` of `global_mesh.py`: keyed by
`str(artifact["id"])`; store (and evolve-and-broadcast) iff the id is
unknown or the incoming timestamp is strictly greater than the stored
one.  The stored entry is the evolved object (stored and mutated in
place); the second component lists the artifacts broadcast. -/
def receive_artifact (name : String) (now rnd : ℚ)
    (state : List (String × GMArtifact)) (artifact : GMArtifact) :
    List (String × GMArtifact) × List GMArtifact :=
  match AdvisoryMesh.dictLookup state (toString artifact.id) with
  | none =>
    (AdvisoryMesh.dictInsert state (toString artifact.id)
        (evolve_artifact name now rnd artifact),
     [evolve_artifact name now rnd artifact])
  | some existing =>
    if existing.timestamp < artifact.timestamp then
      (AdvisoryMesh.dictInsert state (toString artifact.id)
          (evolve_artifact name now rnd artifact),
       [evolve_artifact name now rnd artifact])
    else (state, [])

end IdMesh

namespace AdvisoryMesh

/-- The key-consistency invariant of the three stores: every entry is
keyed by its own artifact's `hash` field. -/
def storeKeysOk (st : GlobalMeshNode) : Prop :=
  (∀ p ∈ st.artifacts, (p.2).hash = p.1) ∧
  (∀ p ∈ st.media_artifacts, (p.2).hash = p.1) ∧
  (∀ p ∈ st.meta_artifacts, (p.2).hash = p.1)

/-- Node states reachable from a freshly constructed node by the
store-mutating operations of the source. -/
inductive Reachable : GlobalMeshNode → Prop
  | init (node_id : String) (gws : List ElysiumGateway)
      (syms : List Symposium) : Reachable (GlobalMeshNode.init node_id gws syms)
  | ingest (st : GlobalMeshNode) (a : Artifact) : Reachable st →
      Reachable (st.process_incoming_artifact a).1
  | addPrimary (st : GlobalMeshNode) (a : Artifact)
      (r : GlobalMeshNode × Artifact) : Reachable st →
      st.add_artifact a = some r → Reachable r.1
  | addMedia (st : GlobalMeshNode) (a : Artifact) : Reachable st →
      Reachable (st.add_media_artifact a).1
  | synth (st : GlobalMeshNode) (H : String → String) (now rnd : ℚ) :
      Reachable st → Reachable (GlobalMeshNode.synthesize_meta H now rnd st)

/-- A deterministic advisor that scores every artifact `1`. -/
def fullScore : Advisor := ⟨"Accept", fun _ => 1⟩

/-- A deterministic advisor that scores every artifact `0`. -/
def zeroScore : Advisor := ⟨"Reject", fun _ => 0⟩

/-- A deterministic advisor that scores every artifact exactly the gate
threshold `0.3`. -/
def boundaryScore : Advisor := ⟨"Boundary", fun _ => 3 / 10⟩

/-- A gateway whose single advisor accepts everything. -/
def gwAccept : ElysiumGateway := ⟨"Gate1", [fullScore]⟩

/-- A gateway whose single advisor scores everything `0` (mean `0`,
below threshold, so it rejects). -/
def gwReject : ElysiumGateway := ⟨"Gate1", [zeroScore]⟩

/-- A concrete primary-type artifact. -/
def sampleArtifact : Artifact :=
  { data := "insight", type := "knowledge", hash := "h-knowledge"
    timestamp := 0, processed_by := [], value := 1 }

/-- A concrete meta-type artifact as received from the wire. -/
def sampleMeta : Artifact :=
  { data := "summary", type := "meta", hash := "h-meta"
    timestamp := 0, processed_by := [], value := 1 }

/-- A concrete media-type artifact. -/
def sampleMedia : Artifact :=
  { data := "clip", type := "media", hash := "h-media"
    timestamp := 0, processed_by := [], value := 0 }

/-- A wire frame whose declared `hash` differs from the hash recomputed
from its `data` under the identity hash model. -/
def mismatchedFrame : ArtifactDict :=
  { data := "payload", type := "media", hash := "deadbeef"
    timestamp := 0, processed_by := [], value := 0 }

/-- Three concrete artifacts with values 1, 2, 3 for the synthesis test. -/
def synthInputs : List Artifact :=
  [ { data := "d1", type := "knowledge", hash := "h1"
      timestamp := 0, processed_by := [], value := 1 }
  , { data := "d2", type := "knowledge", hash := "h2"
      timestamp := 0, processed_by := [], value := 2 }
  , { data := "d3", type := "knowledge", hash := "h3"
      timestamp := 0, processed_by := [], value := 3 } ]

/-- A concrete symposium. -/
def sampleSymposium : Symposium := ⟨"Sym1", []⟩

end AdvisoryMesh

namespace IdMesh

/-- A concrete id-addressed artifact. -/
def gmSample : GMArtifact :=
  { id := 1001, data := "Global Insight", processed_by := []
    timestamp := 3, value := 1 }

end IdMesh

namespace AdvisoryMesh

theorem dictLookup_insert_self {α : Type} (m : List (String × α))
    (k : String) (v : α) : dictLookup (dictInsert m k v) k = some v := by
  induction m with
  | nil => simp [dictInsert, dictLookup]
  | cons p rest ih =>
    rcases p with ⟨k₁, v₁⟩
    by_cases hk : k₁ = k
    · simp [dictInsert, hk, dictLookup]
    · simp only [dictInsert, if_neg hk, dictLookup]
      exact ih

theorem mem_dictInsert {α : Type} (m : List (String × α)) (k : String)
    (v : α) (p : String × α) (hp : p ∈ dictInsert m k v) :
    p ∈ m ∨ p = (k, v) := by
  induction m with
  | nil => simpa [dictInsert] using hp
  | cons q rest ih =>
    rcases q with ⟨k₁, v₁⟩
    by_cases hk : k₁ = k
    · simp only [dictInsert, if_pos hk] at hp
      rcases List.mem_cons.mp hp with h1 | h1
      · exact Or.inr h1
      · exact Or.inl (List.mem_cons_of_mem _ h1)
    · simp only [dictInsert, if_neg hk] at hp
      rcases List.mem_cons.mp hp with h1 | h1
      · exact Or.inl (h1 ▸ List.mem_cons_self _ _)
      · rcases ih h1 with h2 | h2
        · exact Or.inl (List.mem_cons_of_mem _ h2)
        · exact Or.inr h2

end AdvisoryMesh

namespace AdvisoryMesh

/-- C4: for every artifact and every non-empty advisor list, the gate
computes the arithmetic mean of the advisors' scores and accepts iff
that mean is strictly greater than the threshold `0.3`; in particular a
mean exactly at the threshold is rejected. -/
theorem C4_gate_mean_strict_threshold (gw : ElysiumGateway) (a : Artifact)
    (h : gw.advisors ≠ []) :
    (gw.evaluate a = some true ↔
      ((gw.advisors.map (fun adv => adv.score a)).sum /
        (gw.advisors.length : ℚ)) > 3 / 10) ∧
    (((gw.advisors.map (fun adv => adv.score a)).sum /
        (gw.advisors.length : ℚ)) = 3 / 10 → gw.evaluate a = some false) := by
  have hlen : ¬ gw.advisors.length = 0 := fun hh => h (List.length_eq_zero.mp hh)
  constructor
  · unfold ElysiumGateway.evaluate
    rw [if_neg hlen]
    simp
  · intro hm
    unfold ElysiumGateway.evaluate
    rw [if_neg hlen, hm]
    norm_num

/-- Witness for C4: a single deterministic advisor returning exactly the
threshold `0.3` makes the gate reject. -/
theorem C4_gate_mean_strict_threshold_witness :
    (ElysiumGateway.mk "Gate1" [boundaryScore]).evaluate sampleArtifact
      = some false := by
  have h := C4_gate_mean_strict_threshold
    (ElysiumGateway.mk "Gate1" [boundaryScore]) sampleArtifact
    (List.cons_ne_nil _ _)
  exact h.2 (by norm_num [boundaryScore])

/-- C8 (code divergence): constructing a gateway from an empty advisor
list succeeds without any validation (the constructor merely records the
fields), and every later `evaluate` call raises `ZeroDivisionError`
(modelled by `none`): the error surfaces at first evaluation while
serving, not fast at startup. -/
theorem C8_empty_advisors_error_is_deferred :
    (ElysiumGateway.mk "Gate1" []).advisors = [] ∧
    ∀ a : Artifact, (ElysiumGateway.mk "Gate1" []).evaluate a = none :=
  ⟨rfl, fun _ => rfl⟩

end AdvisoryMesh

namespace IdMesh

/-- C9: in the id-addressed variant, an artifact with an unknown id is
always stored, and an artifact whose id is already stored replaces the
stored entry iff its timestamp is strictly greater than the stored
timestamp (the stored entry being the evolved incoming artifact); on a
non-greater timestamp the state is unchanged and nothing is broadcast. -/
theorem C9_last_writer_wins (name : String) (now rnd : ℚ)
    (state : List (String × GMArtifact)) (a : GMArtifact) :
    (AdvisoryMesh.dictLookup state (toString a.id) = none →
      AdvisoryMesh.dictLookup (receive_artifact name now rnd state a).1
          (toString a.id) = some (evolve_artifact name now rnd a) ∧
      (receive_artifact name now rnd state a).2
        = [evolve_artifact name now rnd a]) ∧
    (∀ old, AdvisoryMesh.dictLookup state (toString a.id) = some old →
      (old.timestamp < a.timestamp →
        AdvisoryMesh.dictLookup (receive_artifact name now rnd state a).1
            (toString a.id) = some (evolve_artifact name now rnd a) ∧
        (receive_artifact name now rnd state a).2
          = [evolve_artifact name now rnd a]) ∧
      (¬ old.timestamp < a.timestamp →
        (receive_artifact name now rnd state a).1 = state ∧
        (receive_artifact name now rnd state a).2 = [])) := by
  constructor
  · intro hnone
    unfold receive_artifact
    rw [hnone]
    exact ⟨AdvisoryMesh.dictLookup_insert_self _ _ _, rfl⟩
  · intro old hold
    constructor
    · intro hts
      unfold receive_artifact
      rw [hold]
      dsimp only
      rw [if_pos hts]
      exact ⟨AdvisoryMesh.dictLookup_insert_self _ _ _, rfl⟩
    · intro hts
      unfold receive_artifact
      rw [hold]
      dsimp only
      rw [if_neg hts]
      exact ⟨rfl, rfl⟩

/-- Witness for C9: receiving a concrete artifact with an unknown id into
an empty store stores its evolved version under `str(id)`. -/
theorem C9_last_writer_wins_witness :
    AdvisoryMesh.dictLookup (receive_artifact "Node1" 5 0 [] gmSample).1
        (toString gmSample.id) = some (evolve_artifact "Node1" 5 0 gmSample) :=
  ((C9_last_writer_wins "Node1" 5 0 [] gmSample).1 rfl).1

end IdMesh

namespace AdvisoryMesh

theorem add_media_fields (st : GlobalMeshNode) (a : Artifact) :
    (st.add_media_artifact a).1.seen_hashes = st.seen_hashes ∧
    (st.add_media_artifact a).1.artifacts = st.artifacts ∧
    (st.add_media_artifact a).1.meta_artifacts = st.meta_artifacts := by
  unfold GlobalMeshNode.add_media_artifact
  split
  · exact ⟨rfl, rfl, rfl⟩
  · exact ⟨rfl, rfl, rfl⟩

theorem add_artifact_some_fields (st : GlobalMeshNode) (a : Artifact)
    (r : GlobalMeshNode × Artifact) (h : st.add_artifact a = some r) :
    r.1.seen_hashes = st.seen_hashes ∧
    r.1.media_artifacts = st.media_artifacts ∧
    r.1.meta_artifacts = st.meta_artifacts := by
  unfold GlobalMeshNode.add_artifact at h
  split at h
  · cases h
    exact ⟨rfl, rfl, rfl⟩
  · split at h
    · cases h
    · cases h
      exact ⟨rfl, rfl, rfl⟩
    · cases h
      exact ⟨rfl, rfl, rfl⟩

theorem add_artifact_of_unseen (st : GlobalMeshNode) (a : Artifact)
    (hstore : dictLookup st.artifacts a.hash = none) :
    (evalAll st.gateways a = none → st.add_artifact a = none) ∧
    (evalAll st.gateways a = some false → st.add_artifact a = some (st, a)) ∧
    (evalAll st.gateways a = some true →
      st.add_artifact a = some
        ({ st with
            artifacts := dictInsert st.artifacts a.hash
              { a with processed_by := a.processed_by ++ [st.node_id] } },
         { a with processed_by := a.processed_by ++ [st.node_id] })) := by
  refine ⟨fun hg => ?_, fun hg => ?_, fun hg => ?_⟩ <;>
    simp [GlobalMeshNode.add_artifact, hstore, hg]

theorem process_of_seen (st : GlobalMeshNode) (a : Artifact)
    (h : a.hash ∈ st.seen_hashes) :
    st.process_incoming_artifact a = (st, some []) := by
  unfold GlobalMeshNode.process_incoming_artifact
  rw [if_pos h]

theorem process_mem_seen (st : GlobalMeshNode) (a : Artifact) :
    a.hash ∈ (st.process_incoming_artifact a).1.seen_hashes := by
  by_cases h : a.hash ∈ st.seen_hashes
  · rw [process_of_seen st a h]
    exact h
  · unfold GlobalMeshNode.process_incoming_artifact
    rw [if_neg h]
    by_cases ht : a.type = "media"
    · rw [if_pos ht]
      rw [(add_media_fields (st.markSeen a) a).1]
      exact List.mem_cons_self _ _
    · rw [if_neg ht]
      cases hadd : (st.markSeen a).add_artifact a with
      | none =>
        simp only [hadd]
        exact List.mem_cons_self _ _
      | some r =>
        simp only [hadd]
        rw [(add_artifact_some_fields _ a r hadd).1]
        exact List.mem_cons_self _ _

theorem process_seen_mono (st : GlobalMeshNode) (a : Artifact) (h : String)
    (hm : h ∈ st.seen_hashes) :
    h ∈ (st.process_incoming_artifact a).1.seen_hashes := by
  by_cases hs : a.hash ∈ st.seen_hashes
  · rw [process_of_seen st a hs]
    exact hm
  · unfold GlobalMeshNode.process_incoming_artifact
    rw [if_neg hs]
    by_cases ht : a.type = "media"
    · rw [if_pos ht]
      rw [(add_media_fields (st.markSeen a) a).1]
      exact List.mem_cons_of_mem _ hm
    · rw [if_neg ht]
      cases hadd : (st.markSeen a).add_artifact a with
      | none =>
        simp only [hadd]
        exact List.mem_cons_of_mem _ hm
      | some r =>
        simp only [hadd]
        rw [(add_artifact_some_fields _ a r hadd).1]
        exact List.mem_cons_of_mem _ hm

theorem synthFold_seen (H : String → String) (now rnd : ℚ)
    (arts : List Artifact) (syms : List Symposium) (acc : GlobalMeshNode) :
    (syms.foldl (metaFoldStep H now rnd arts) acc).seen_hashes
      = acc.seen_hashes := by
  induction syms generalizing acc with
  | nil => rfl
  | cons sym rest ih => exact ih _

theorem synth_seen (H : String → String) (now rnd : ℚ)
    (st : GlobalMeshNode) :
    (GlobalMeshNode.synthesize_meta H now rnd st).seen_hashes
      = st.seen_hashes := by
  unfold GlobalMeshNode.synthesize_meta
  split
  · rfl
  · exact synthFold_seen H now rnd _ _ st

/-- C6: ingest is idempotent: a second `process_incoming_artifact` call
with the same artifact is short-circuited by the seen-set dedup check and
returns the state of the first call unchanged (and propagates nothing). -/
theorem C6_ingest_idempotent (st : GlobalMeshNode) (a : Artifact) :
    (st.process_incoming_artifact a).1.process_incoming_artifact a
      = ((st.process_incoming_artifact a).1, some []) :=
  process_of_seen _ a (process_mem_seen st a)

/-- C7: after any ingest the artifact's hash is in the seen-set (even when
the gate rejected it or raised), every previously seen hash stays seen,
and none of the other store operations ever touches the seen-set. -/
theorem C7_seen_set_only_grows (st : GlobalMeshNode) (a : Artifact) :
    a.hash ∈ (st.process_incoming_artifact a).1.seen_hashes ∧
    (∀ h ∈ st.seen_hashes, h ∈ (st.process_incoming_artifact a).1.seen_hashes) ∧
    (∀ r, st.add_artifact a = some r → r.1.seen_hashes = st.seen_hashes) ∧
    (st.add_media_artifact a).1.seen_hashes = st.seen_hashes ∧
    ∀ H now rnd,
      (GlobalMeshNode.synthesize_meta H now rnd st).seen_hashes
        = st.seen_hashes :=
  ⟨process_mem_seen st a,
   fun h hm => process_seen_mono st a h hm,
   fun r hr => (add_artifact_some_fields st a r hr).1,
   (add_media_fields st a).1,
   fun H now rnd => synth_seen H now rnd st⟩

/-- Witness for C7: ingesting a concrete artifact into a fresh node puts
its hash into the seen-set. -/
theorem C7_seen_set_only_grows_witness :
    sampleArtifact.hash ∈
      ((GlobalMeshNode.init "N" [gwAccept] []).process_incoming_artifact
        sampleArtifact).1.seen_hashes :=
  (C7_seen_set_only_grows (GlobalMeshNode.init "N" [gwAccept] [])
    sampleArtifact).1

/-- Witness for C6: second ingest of a concrete artifact on a fresh node
leaves the state of the first ingest unchanged. -/
theorem C6_ingest_idempotent_witness :
    ((GlobalMeshNode.init "N" [gwAccept] []).process_incoming_artifact
        sampleArtifact).1.process_incoming_artifact sampleArtifact
      = (((GlobalMeshNode.init "N" [gwAccept] []).process_incoming_artifact
          sampleArtifact).1, some []) :=
  C6_ingest_idempotent (GlobalMeshNode.init "N" [gwAccept] []) sampleArtifact

end AdvisoryMesh

namespace AdvisoryMesh

theorem gwAccept_eval (a : Artifact) : gwAccept.evaluate a = some true := by
  norm_num [gwAccept, fullScore, ElysiumGateway.evaluate]

theorem gwReject_eval (a : Artifact) : gwReject.evaluate a = some false := by
  norm_num [gwReject, zeroScore, ElysiumGateway.evaluate]

theorem evalAll_gwAccept (a : Artifact) : evalAll [gwAccept] a = some true := by
  simp [evalAll, gwAccept_eval]

theorem evalAll_gwReject (a : Artifact) : evalAll [gwReject] a = some false := by
  simp [evalAll, gwReject_eval]

theorem add_media_of_unseen (st : GlobalMeshNode) (a : Artifact)
    (h : dictLookup st.media_artifacts a.hash = none) :
    st.add_media_artifact a =
      ({ st with
          media_artifacts := dictInsert st.media_artifacts a.hash
            { a with processed_by := a.processed_by ++ [st.node_id] } },
       { a with processed_by := a.processed_by ++ [st.node_id] }) := by
  simp [GlobalMeshNode.add_media_artifact, h]

/-- C2 (amended): for an unseen non-media artifact whose hash is not in
the primary store, the gate controls storage and provenance only: on
accept the evolved artifact is stored and propagated; on reject nothing
is stored but the artifact is still handed to `propagate_artifact`. -/
theorem C2_gate_gates_storage_not_propagation (st : GlobalMeshNode)
    (a : Artifact) (r : Bool)
    (hseen : a.hash ∉ st.seen_hashes) (htype : ¬ a.type = "media")
    (hstore : dictLookup st.artifacts a.hash = none)
    (hgate : evalAll st.gateways a = some r) :
    (r = true →
      dictLookup (st.process_incoming_artifact a).1.artifacts a.hash
        = some { a with processed_by := a.processed_by ++ [st.node_id] } ∧
      (st.process_incoming_artifact a).2
        = some [{ a with processed_by := a.processed_by ++ [st.node_id] }]) ∧
    (r = false →
      (st.process_incoming_artifact a).1.artifacts = st.artifacts ∧
      (st.process_incoming_artifact a).2 = some [a]) := by
  have hgate' : evalAll (st.markSeen a).gateways a = some r := hgate
  have hstore' : dictLookup (st.markSeen a).artifacts a.hash = none := hstore
  constructor
  · intro hr
    subst hr
    have hadd := (add_artifact_of_unseen (st.markSeen a) a hstore').2.2 hgate'
    unfold GlobalMeshNode.process_incoming_artifact
    rw [if_neg hseen, if_neg htype, hadd]
    exact ⟨dictLookup_insert_self _ _ _, rfl⟩
  · intro hr
    subst hr
    have hadd := (add_artifact_of_unseen (st.markSeen a) a hstore').2.1 hgate'
    unfold GlobalMeshNode.process_incoming_artifact
    rw [if_neg hseen, if_neg htype, hadd]
    exact ⟨rfl, rfl⟩

/-- Witness for C2 (amended), accept side: on a fresh node with an
all-accepting gateway a concrete knowledge artifact is stored with the
node id appended and propagated in that evolved form. -/
theorem C2_gate_gates_storage_not_propagation_witness :
    dictLookup ((GlobalMeshNode.init "N" [gwAccept] []).process_incoming_artifact
        sampleArtifact).1.artifacts sampleArtifact.hash
      = some { sampleArtifact with
                 processed_by := sampleArtifact.processed_by ++ ["N"] } ∧
    ((GlobalMeshNode.init "N" [gwAccept] []).process_incoming_artifact
        sampleArtifact).2
      = some [{ sampleArtifact with
                  processed_by := sampleArtifact.processed_by ++ ["N"] }] :=
  (C2_gate_gates_storage_not_propagation (GlobalMeshNode.init "N" [gwAccept] [])
    sampleArtifact true (List.not_mem_nil _) (by decide) rfl
    (evalAll_gwAccept sampleArtifact)).1 rfl

/-- C2 counterexample: on a fresh node whose single gateway rejects
everything, a concrete knowledge artifact is not stored — yet it IS
propagated (`propagate_artifact` receives it), contradicting the claim
that a gate-rejected artifact is not propagated to any peer. -/
theorem C2_counterexample :
    ((GlobalMeshNode.init "N" [gwReject] []).process_incoming_artifact
        sampleArtifact).1.artifacts = [] ∧
    ((GlobalMeshNode.init "N" [gwReject] []).process_incoming_artifact
        sampleArtifact).2 = some [sampleArtifact] := by
  have hseen : sampleArtifact.hash ∉
      (GlobalMeshNode.init "N" [gwReject] []).seen_hashes :=
    List.not_mem_nil _
  have htype : ¬ sampleArtifact.type = "media" := by decide
  have hadd := (add_artifact_of_unseen
    ((GlobalMeshNode.init "N" [gwReject] []).markSeen sampleArtifact)
    sampleArtifact rfl).2.1 (evalAll_gwReject sampleArtifact)
  unfold GlobalMeshNode.process_incoming_artifact
  rw [if_neg hseen, if_neg htype, hadd]
  exact ⟨rfl, rfl⟩

/-- C5 (amended): only media-type artifacts are stored unconditionally
(no gate) in the media store; a meta-type incoming artifact is dispatched
through the gated primary path like any non-media artifact (here shown on
the gate-reject side: it is stored in no store at all, though still
propagated). -/
theorem C5_media_unconditional_meta_gated (st : GlobalMeshNode)
    (a : Artifact) (hseen : a.hash ∉ st.seen_hashes) :
    (a.type = "media" → dictLookup st.media_artifacts a.hash = none →
      dictLookup (st.process_incoming_artifact a).1.media_artifacts a.hash
        = some { a with processed_by := a.processed_by ++ [st.node_id] } ∧
      (st.process_incoming_artifact a).2
        = some [{ a with processed_by := a.processed_by ++ [st.node_id] }]) ∧
    (a.type = "meta" → dictLookup st.artifacts a.hash = none →
      evalAll st.gateways a = some false →
      (st.process_incoming_artifact a).1.artifacts = st.artifacts ∧
      (st.process_incoming_artifact a).1.media_artifacts = st.media_artifacts ∧
      (st.process_incoming_artifact a).1.meta_artifacts = st.meta_artifacts ∧
      (st.process_incoming_artifact a).2 = some [a]) := by
  constructor
  · intro htype hmedia
    have hmedia' : dictLookup (st.markSeen a).media_artifacts a.hash = none :=
      hmedia
    have hadd := add_media_of_unseen (st.markSeen a) a hmedia'
    unfold GlobalMeshNode.process_incoming_artifact
    rw [if_neg hseen, if_pos htype, hadd]
    exact ⟨dictLookup_insert_self _ _ _, rfl⟩
  · intro htype hstore hgate
    have hm : ¬ a.type = "media" := by rw [htype]; decide
    have hstore' : dictLookup (st.markSeen a).artifacts a.hash = none := hstore
    have hgate' : evalAll (st.markSeen a).gateways a = some false := hgate
    have hadd := (add_artifact_of_unseen (st.markSeen a) a hstore').2.1 hgate'
    unfold GlobalMeshNode.process_incoming_artifact
    rw [if_neg hseen, if_neg hm, hadd]
    exact ⟨rfl, rfl, rfl, rfl⟩

/-- Witness for C5 (amended), media side: a concrete media artifact is
stored in the media store with provenance appended even though the node's
only gateway rejects everything, and is propagated. -/
theorem C5_media_unconditional_meta_gated_witness :
    dictLookup ((GlobalMeshNode.init "N" [gwReject] []).process_incoming_artifact
        sampleMedia).1.media_artifacts sampleMedia.hash
      = some { sampleMedia with
                 processed_by := sampleMedia.processed_by ++ ["N"] } ∧
    ((GlobalMeshNode.init "N" [gwReject] []).process_incoming_artifact
        sampleMedia).2
      = some [{ sampleMedia with
                  processed_by := sampleMedia.processed_by ++ ["N"] }] :=
  ((C5_media_unconditional_meta_gated (GlobalMeshNode.init "N" [gwReject] [])
    sampleMedia (List.not_mem_nil _)).1 rfl rfl)

/-- C5 counterexample: on a fresh node whose single gateway rejects
everything, an unseen meta-type artifact ends up in no store at all —
the gate IS evaluated for meta artifacts, contradicting the claim that
media and meta artifacts are stored unconditionally without the gate. -/
theorem C5_counterexample :
    dictLookup ((GlobalMeshNode.init "N" [gwReject] []).process_incoming_artifact
        sampleMeta).1.meta_artifacts sampleMeta.hash = none ∧
    dictLookup ((GlobalMeshNode.init "N" [gwReject] []).process_incoming_artifact
        sampleMeta).1.artifacts sampleMeta.hash = none ∧
    dictLookup ((GlobalMeshNode.init "N" [gwReject] []).process_incoming_artifact
        sampleMeta).1.media_artifacts sampleMeta.hash = none := by
  have hseen : sampleMeta.hash ∉
      (GlobalMeshNode.init "N" [gwReject] []).seen_hashes :=
    List.not_mem_nil _
  have htype : ¬ sampleMeta.type = "media" := by decide
  have hadd := (add_artifact_of_unseen
    ((GlobalMeshNode.init "N" [gwReject] []).markSeen sampleMeta)
    sampleMeta rfl).2.1 (evalAll_gwReject sampleMeta)
  unfold GlobalMeshNode.process_incoming_artifact
  rw [if_neg hseen, if_neg htype, hadd]
  exact ⟨rfl, rfl, rfl⟩

/-- C1 (code divergence): the node performs no integrity check.  Under the
hash model `H := id`, the concrete frame `mismatchedFrame` declares hash
`"deadbeef"` although the hash recomputed from its data is `"payload"`;
`from_dict` keeps the declared hash (discarding the recomputed one), and a
fresh node ingests the artifact: it enters the seen-set, it is stored in
the media store under the declared hash, and it is propagated — nothing is
dropped. -/
theorem C1_no_integrity_check :
    ¬ (fun s => s) mismatchedFrame.data = mismatchedFrame.hash ∧
    (Artifact.from_dict (fun s => s) 0 0 mismatchedFrame).hash
      = mismatchedFrame.hash ∧
    mismatchedFrame.hash ∈
      ((GlobalMeshNode.init "N" [gwAccept] []).process_incoming_artifact
        (Artifact.from_dict (fun s => s) 0 0 mismatchedFrame)).1.seen_hashes ∧
    dictLookup ((GlobalMeshNode.init "N" [gwAccept] []).process_incoming_artifact
        (Artifact.from_dict (fun s => s) 0 0 mismatchedFrame)).1.media_artifacts
        mismatchedFrame.hash
      = some { data := "payload", type := "media", hash := "deadbeef"
               timestamp := 0, processed_by := ["N"], value := 0 } ∧
    ((GlobalMeshNode.init "N" [gwAccept] []).process_incoming_artifact
        (Artifact.from_dict (fun s => s) 0 0 mismatchedFrame)).2
      = some [{ data := "payload", type := "media", hash := "deadbeef"
                timestamp := 0, processed_by := ["N"], value := 0 }] := by
  decide

/-- C3 (amended): for every non-empty input list, `synthesize` produces a
meta artifact whose data is the `"|"`-join of the inputs' data and whose
value is exactly the arithmetic mean of the input values — no synthesis
premium is applied. -/
theorem C3_synthesis_mean_without_premium (H : String → String)
    (now rnd : ℚ) (sym : Symposium) (arts : List Artifact)
    (h : ¬ arts = []) :
    (Symposium.synthesize H now rnd sym arts).data
      = String.intercalate "|" (arts.map (fun a => a.data)) ∧
    (Symposium.synthesize H now rnd sym arts).value
      = (arts.map (fun a => a.value)).sum / (arts.length : ℚ) := by
  have he : arts.isEmpty = false := by
    cases arts with
    | nil => exact absurd rfl h
    | cons x t => rfl
  exact ⟨rfl, by simp [Symposium.synthesize, he]⟩

/-- Witness for C3 (amended): on the concrete inputs with values 1, 2, 3
the synthesized meta artifact has data `"d1|d2|d3"` and value exactly the
mean `2`. -/
theorem C3_synthesis_mean_without_premium_witness :
    (Symposium.synthesize (fun s => s) 0 0 sampleSymposium synthInputs).data
      = "d1|d2|d3" ∧
    (Symposium.synthesize (fun s => s) 0 0 sampleSymposium synthInputs).value
      = 2 := by
  have h := C3_synthesis_mean_without_premium (fun s => s) 0 0
    sampleSymposium synthInputs (by decide)
  refine ⟨?_, ?_⟩
  · rw [h.1]
    decide
  · rw [h.2]
    norm_num [synthInputs]

/-- C3 counterexample: on inputs with values 1, 2, 3 the synthesized value
is the bare mean `2`, not `mean * 1.15 = 2.3` as the claim states. -/
theorem C3_counterexample :
    (Symposium.synthesize (fun s => s) 0 0 sampleSymposium synthInputs).value
      = 2 ∧
    ¬ (Symposium.synthesize (fun s => s) 0 0 sampleSymposium synthInputs).value
        = (1 + 2 + 3) / 3 * (115 / 100) := by
  constructor
  · norm_num [Symposium.synthesize, Artifact.create, synthInputs]
  · norm_num [Symposium.synthesize, Artifact.create, synthInputs]

end AdvisoryMesh

namespace AdvisoryMesh

theorem keys_dictInsert (m : List (String × Artifact)) (k : String)
    (v : Artifact) (hm : ∀ p ∈ m, (p.2).hash = p.1) (hv : v.hash = k) :
    ∀ p ∈ dictInsert m k v, (p.2).hash = p.1 := by
  intro p hp
  rcases mem_dictInsert m k v p hp with h1 | h1
  · exact hm p h1
  · rw [h1]
    exact hv

theorem storeKeysOk_init (node_id : String) (gws : List ElysiumGateway)
    (syms : List Symposium) :
    storeKeysOk (GlobalMeshNode.init node_id gws syms) := by
  refine ⟨?_, ?_, ?_⟩ <;> intro p hp <;> exact absurd hp (List.not_mem_nil p)

theorem keysOk_add_artifact (st : GlobalMeshNode) (a : Artifact)
    (r : GlobalMeshNode × Artifact) (h : st.add_artifact a = some r)
    (hok : storeKeysOk st) : storeKeysOk r.1 := by
  unfold GlobalMeshNode.add_artifact at h
  split at h
  · cases h
    exact hok
  · split at h
    · cases h
    · cases h
      exact hok
    · cases h
      exact ⟨keys_dictInsert _ _ _ hok.1 rfl, hok.2.1, hok.2.2⟩

theorem keysOk_add_media (st : GlobalMeshNode) (a : Artifact)
    (hok : storeKeysOk st) : storeKeysOk (st.add_media_artifact a).1 := by
  unfold GlobalMeshNode.add_media_artifact
  split
  · exact hok
  · exact ⟨hok.1, keys_dictInsert _ _ _ hok.2.1 rfl, hok.2.2⟩

theorem synthFold_stores (H : String → String) (now rnd : ℚ)
    (arts : List Artifact) (syms : List Symposium) (acc : GlobalMeshNode) :
    (syms.foldl (metaFoldStep H now rnd arts) acc).artifacts = acc.artifacts ∧
    (syms.foldl (metaFoldStep H now rnd arts) acc).media_artifacts
      = acc.media_artifacts := by
  induction syms generalizing acc with
  | nil => exact ⟨rfl, rfl⟩
  | cons sym rest ih => exact ih _

theorem keysOk_synthFold (H : String → String) (now rnd : ℚ)
    (arts : List Artifact) (syms : List Symposium) (acc : GlobalMeshNode)
    (h : ∀ p ∈ acc.meta_artifacts, (p.2).hash = p.1) :
    ∀ p ∈ (syms.foldl (metaFoldStep H now rnd arts) acc).meta_artifacts,
      (p.2).hash = p.1 := by
  induction syms generalizing acc with
  | nil => exact h
  | cons sym rest ih => exact ih _ (keys_dictInsert _ _ _ h rfl)

theorem keysOk_synth (H : String → String) (now rnd : ℚ)
    (st : GlobalMeshNode) (hok : storeKeysOk st) :
    storeKeysOk (GlobalMeshNode.synthesize_meta H now rnd st) := by
  unfold GlobalMeshNode.synthesize_meta
  split
  · exact hok
  · refine ⟨?_, ?_, keysOk_synthFold _ _ _ _ _ _ hok.2.2⟩
    · rw [(synthFold_stores H now rnd _ st.symposiums st).1]
      exact hok.1
    · rw [(synthFold_stores H now rnd _ st.symposiums st).2]
      exact hok.2.1

theorem keysOk_process (st : GlobalMeshNode) (a : Artifact)
    (hok : storeKeysOk st) :
    storeKeysOk (st.process_incoming_artifact a).1 := by
  by_cases h : a.hash ∈ st.seen_hashes
  · rw [process_of_seen st a h]
    exact hok
  · unfold GlobalMeshNode.process_incoming_artifact
    rw [if_neg h]
    by_cases ht : a.type = "media"
    · rw [if_pos ht]
      exact keysOk_add_media (st.markSeen a) a hok
    · rw [if_neg ht]
      cases hadd : (st.markSeen a).add_artifact a with
      | none =>
        simp only [hadd]
        exact hok
      | some r =>
        simp only [hadd]
        exact keysOk_add_artifact (st.markSeen a) a r hadd hok

/-- C10: in every reachable node state, every entry of the primary, media
and meta stores is keyed by its own artifact's `hash` field. -/
theorem C10_stores_keyed_by_own_hash (st : GlobalMeshNode)
    (h : Reachable st) : storeKeysOk st := by
  induction h with
  | init node_id gws syms => exact storeKeysOk_init node_id gws syms
  | ingest st a _ ih => exact keysOk_process st a ih
  | addPrimary st a r _ hr ih => exact keysOk_add_artifact st a r hr ih
  | addMedia st a _ ih => exact keysOk_add_media st a ih
  | synth st H now rnd _ ih => exact keysOk_synth H now rnd st ih

/-- Witness for C10: the invariant holds in the concrete reachable state
obtained by ingesting a concrete artifact into a fresh node. -/
theorem C10_stores_keyed_by_own_hash_witness :
    storeKeysOk ((GlobalMeshNode.init "N" [gwAccept] []).process_incoming_artifact
      sampleArtifact).1 :=
  C10_stores_keyed_by_own_hash _
    (Reachable.ingest _ sampleArtifact (Reachable.init "N" [gwAccept] []))

end AdvisoryMesh
